import Mathlib

/-!
Verification of the rollback-accounts core (`svm/src/rollback_accounts.rs`).

The Rust code captures, per transaction, a minimal snapshot of the accounts
that must be restored after a failed execution.  We embed the data model and
the four operations (`RollbackAccounts::new`, `count`, `iter`, `data_size`)
shallowly in Lean: machine words become `Nat` (no arithmetic overflows here
except the explicitly saturating `usize` addition in `data_size`, which we
model with an explicit cap), account data becomes a list of bytes, and the
Rust iterator becomes an explicit state machine with a `next` step function.
-/

/-- Public-key identifier (`solana_pubkey::Pubkey`), modelled as a `Nat`.
Only equality of addresses is ever inspected by this core. -/
abbrev Pubkey := Nat

/-- `solana_clock::Epoch`, a `u64` counter.  No arithmetic is performed on it
here, so `Nat` is a faithful model. -/
abbrev Epoch := Nat

/-- `usize::MAX` on a 64-bit target; the saturation bound of
`usize::saturating_add`. -/
def USIZE_MAX : Nat := 2 ^ 64 - 1

/-- `a.saturating_add b` on `usize`: ordinary addition capped at
`USIZE_MAX`. -/
def Nat.saturating_add (a b : Nat) : Nat := min (a + b) USIZE_MAX

/-- `solana_account::AccountSharedData`: lamport balance (`u64`), raw data
payload (byte vector), owning program id, executable flag and rent-epoch
counter (`u64`). -/
structure AccountSharedData where
  lamports : Nat
  data : List Nat
  owner : Pubkey
  executable : Bool
  rent_epoch : Epoch
  deriving DecidableEq, Repr

/-- `AccountSharedData::set_data_from_slice`: replace the data payload,
leaving every other field unchanged. -/
def AccountSharedData.set_data_from_slice (a : AccountSharedData) (d : List Nat) :
    AccountSharedData :=
  { a with data := d }

/-- `AccountSharedData::set_rent_epoch`: replace the rent-epoch field,
leaving every other field unchanged. -/
def AccountSharedData.set_rent_epoch (a : AccountSharedData) (e : Epoch) :
    AccountSharedData :=
  { a with rent_epoch := e }

/-- `solana_transaction_context::TransactionAccount`: an
`(address, account-state)` pair. -/
abbrev TransactionAccount := Pubkey × AccountSharedData

/-- `crate::nonce_info::NonceInfo`: the advanced nonce account, an address
plus its (already advanced) account state.  `rollback_accounts.rs` reads it
through `address()` / `account()` and the fields `address` / `account`. -/
structure NonceInfo where
  address : Pubkey
  account : AccountSharedData
  deriving DecidableEq, Repr

/-- The `RollbackAccounts` enum: captured account state used to roll back
nonce and fee-payer accounts after a failed executed transaction. -/
inductive RollbackAccounts where
  | FeePayerOnly (fee_payer : TransactionAccount)
  | SameNonceAndFeePayer (nonce : TransactionAccount)
  | SeparateNonceAndFeePayer (nonce : TransactionAccount) (fee_payer : TransactionAccount)
  deriving DecidableEq, Repr

/-- `RollbackAccounts::new`. -/
def RollbackAccounts.new (nonce : Option NonceInfo) (fee_payer_address : Pubkey)
    (fee_payer_account : AccountSharedData) (fee_payer_loaded_rent_epoch : Epoch) :
    RollbackAccounts :=
  match nonce with
  | some nonce =>
    if fee_payer_address = nonce.address then
      RollbackAccounts.SameNonceAndFeePayer
        (fee_payer_address, fee_payer_account.set_data_from_slice nonce.account.data)
    else
      RollbackAccounts.SeparateNonceAndFeePayer
        (nonce.address, nonce.account)
        (fee_payer_address, fee_payer_account)
  | none =>
    RollbackAccounts.FeePayerOnly
      (fee_payer_address, fee_payer_account.set_rent_epoch fee_payer_loaded_rent_epoch)

/-- `RollbackAccounts::count`: number of accounts tracked for rollback. -/
def RollbackAccounts.count : RollbackAccounts → Nat
  | .FeePayerOnly _ => 1
  | .SameNonceAndFeePayer _ => 1
  | .SeparateNonceAndFeePayer _ _ => 2

/-- `RollbackAccountsIter`: two optional slots, fee payer served before
nonce. -/
structure RollbackAccountsIter where
  fee_payer : Option TransactionAccount
  nonce : Option TransactionAccount
  deriving DecidableEq, Repr

/-- `Iterator::next` for `RollbackAccountsIter`: take the fee-payer slot if
filled, otherwise the nonce slot, otherwise yield nothing.  Returns the
yielded item together with the successor state (Rust mutates in place via
`Option::take`). -/
def RollbackAccountsIter.next (it : RollbackAccountsIter) :
    Option TransactionAccount × RollbackAccountsIter :=
  match it.fee_payer with
  | some fee_payer => (some fee_payer, { it with fee_payer := none })
  | none =>
    match it.nonce with
    | some nonce => (some nonce, { it with nonce := none })
    | none => (none, it)

/-- `RollbackAccounts::iter`: the initial iterator state for each variant. -/
def RollbackAccounts.iter : RollbackAccounts → RollbackAccountsIter
  | .FeePayerOnly fee_payer => { fee_payer := some fee_payer, nonce := none }
  | .SameNonceAndFeePayer nonce => { fee_payer := none, nonce := some nonce }
  | .SeparateNonceAndFeePayer nonce fee_payer =>
      { fee_payer := some fee_payer, nonce := some nonce }

/-- Number of filled slots of an iterator state; an upper bound on the
number of elements still to be yielded. -/
def RollbackAccountsIter.weight (it : RollbackAccountsIter) : Nat :=
  (if it.fee_payer.isSome then 1 else 0) + (if it.nonce.isSome then 1 else 0)

/-- Drive `next` up to `fuel` times, collecting the yielded elements and
stopping at the first `none`. -/
def RollbackAccountsIter.takeAux : Nat → RollbackAccountsIter → List TransactionAccount
  | 0, _ => []
  | Nat.succ fuel, it =>
    match it.next with
    | (none, _) => []
    | (some x, it2) => x :: takeAux fuel it2

/-- The full yield sequence of an iterator run to exhaustion: `weight` steps
always suffice, since each successful `next` empties one slot and `next`
yields nothing once both slots are empty. -/
def RollbackAccountsIter.toList (it : RollbackAccountsIter) : List TransactionAccount :=
  it.takeAux it.weight

/-- The iterator state after `k` calls to `next`. -/
def RollbackAccountsIter.nthState : Nat → RollbackAccountsIter → RollbackAccountsIter
  | 0, it => it
  | Nat.succ k, it => nthState k it.next.2

/-- `RollbackAccounts::data_size`: drive the iterator to completion once,
summing data-payload byte lengths with saturating addition from 0. -/
def RollbackAccounts.data_size (self : RollbackAccounts) : Nat :=
  self.iter.toList.foldl (fun total_size a => total_size.saturating_add a.2.data.length) 0

/-- Discriminator for the `FeePayerOnly` variant. -/
def RollbackAccounts.isFeePayerOnly : RollbackAccounts → Bool
  | .FeePayerOnly _ => true
  | _ => false

/-- Discriminator for the `SameNonceAndFeePayer` variant. -/
def RollbackAccounts.isSameNonceAndFeePayer : RollbackAccounts → Bool
  | .SameNonceAndFeePayer _ => true
  | _ => false

/-- Discriminator for the `SeparateNonceAndFeePayer` variant. -/
def RollbackAccounts.isSeparateNonceAndFeePayer : RollbackAccounts → Bool
  | .SeparateNonceAndFeePayer _ _ => true
  | _ => false

/-- A sample fee-payer account state, used by the witness theorems. -/
def sampleFeePayerAccount : AccountSharedData :=
  { lamports := 100, data := [1, 2, 3], owner := 7, executable := false, rent_epoch := 5 }

/-- A sample nonce account state, used by the witness theorems. -/
def sampleNonceAccount : AccountSharedData :=
  { lamports := 43, data := [9, 9], owner := 3, executable := true, rent_epoch := 2 }

/-- A sample advanced-nonce input at address 11, used by the witness
theorems. -/
def sampleNonceInfo : NonceInfo := { address := 11, account := sampleNonceAccount }

/-- C1: with a nonce present whose address equals the fee-payer address,
construction returns `SameNonceAndFeePayer` whose single stored entry has
the fee-payer address, the nonce account's data payload (the advanced
durable-nonce encoding), and the input fee-payer account's lamports. -/
theorem new_same_nonce_and_fee_payer (n : NonceInfo) (fee_payer_address : Pubkey)
    (fee_payer_account : AccountSharedData) (fee_payer_loaded_rent_epoch : Epoch)
    (h : n.address = fee_payer_address) :
    ∃ entry : TransactionAccount,
      RollbackAccounts.new (some n) fee_payer_address fee_payer_account
          fee_payer_loaded_rent_epoch = RollbackAccounts.SameNonceAndFeePayer entry ∧
      entry.1 = fee_payer_address ∧
      entry.2.data = n.account.data ∧
      entry.2.lamports = fee_payer_account.lamports := by
  refine ⟨(fee_payer_address, fee_payer_account.set_data_from_slice n.account.data),
    ?_, rfl, rfl, rfl⟩
  simp [RollbackAccounts.new, h]

/-- Witness for C1 at a concrete input. -/
theorem new_same_nonce_and_fee_payer_witness :
    sampleNonceInfo.address = 11 ∧
    ∃ entry : TransactionAccount,
      RollbackAccounts.new (some sampleNonceInfo) 11 sampleFeePayerAccount 5
          = RollbackAccounts.SameNonceAndFeePayer entry ∧
      entry.1 = 11 ∧
      entry.2.data = sampleNonceInfo.account.data ∧
      entry.2.lamports = sampleFeePayerAccount.lamports :=
  ⟨by decide, new_same_nonce_and_fee_payer sampleNonceInfo 11 sampleFeePayerAccount 5 (by decide)⟩

/-- C2: with no nonce, construction returns `FeePayerOnly` whose entry has
the fee-payer address, rent-epoch equal to `fee_payer_loaded_rent_epoch`
(whatever rent-epoch the input account carried), and the input account's
lamports, data and owner. -/
theorem new_fee_payer_only (fee_payer_address : Pubkey) (fee_payer_account : AccountSharedData)
    (fee_payer_loaded_rent_epoch : Epoch) :
    ∃ entry : TransactionAccount,
      RollbackAccounts.new none fee_payer_address fee_payer_account fee_payer_loaded_rent_epoch
          = RollbackAccounts.FeePayerOnly entry ∧
      entry.1 = fee_payer_address ∧
      entry.2.rent_epoch = fee_payer_loaded_rent_epoch ∧
      entry.2.lamports = fee_payer_account.lamports ∧
      entry.2.data = fee_payer_account.data ∧
      entry.2.owner = fee_payer_account.owner :=
  ⟨(fee_payer_address, fee_payer_account.set_rent_epoch fee_payer_loaded_rent_epoch),
    rfl, rfl, rfl, rfl, rfl, rfl⟩

/-- C3: with a nonce present whose address differs from the fee-payer
address, construction returns `SeparateNonceAndFeePayer` with the nonce
entry `(n.address, n.account)` unchanged and the fee-payer entry
`(fee_payer_address, fee_payer_account)` unchanged (in particular the
fee payer's rent-epoch is not reset). -/
theorem new_separate_nonce_and_fee_payer (n : NonceInfo) (fee_payer_address : Pubkey)
    (fee_payer_account : AccountSharedData) (fee_payer_loaded_rent_epoch : Epoch)
    (h : n.address ≠ fee_payer_address) :
    RollbackAccounts.new (some n) fee_payer_address fee_payer_account fee_payer_loaded_rent_epoch
      = RollbackAccounts.SeparateNonceAndFeePayer (n.address, n.account)
          (fee_payer_address, fee_payer_account) := by
  simp [RollbackAccounts.new, Ne.symm h]

/-- Witness for C3 at a concrete input. -/
theorem new_separate_nonce_and_fee_payer_witness :
    sampleNonceInfo.address ≠ 4 ∧
    RollbackAccounts.new (some sampleNonceInfo) 4 sampleFeePayerAccount 5
      = RollbackAccounts.SeparateNonceAndFeePayer
          (sampleNonceInfo.address, sampleNonceInfo.account) (4, sampleFeePayerAccount) :=
  ⟨by decide, new_separate_nonce_and_fee_payer sampleNonceInfo 4 sampleFeePayerAccount 5 (by decide)⟩

/-- C4: variant selection is exact — with a nonce present the result is
`SameNonceAndFeePayer` precisely when the nonce address equals the
fee-payer address and `SeparateNonceAndFeePayer` otherwise, and
`FeePayerOnly` is produced precisely when no nonce is given. -/
theorem new_variant_selection (nonce : Option NonceInfo) (fee_payer_address : Pubkey)
    (fee_payer_account : AccountSharedData) (fee_payer_loaded_rent_epoch : Epoch) :
    ((RollbackAccounts.new nonce fee_payer_address fee_payer_account
        fee_payer_loaded_rent_epoch).isSameNonceAndFeePayer = true ↔
      ∃ n : NonceInfo, nonce = some n ∧ n.address = fee_payer_address) ∧
    ((RollbackAccounts.new nonce fee_payer_address fee_payer_account
        fee_payer_loaded_rent_epoch).isSeparateNonceAndFeePayer = true ↔
      ∃ n : NonceInfo, nonce = some n ∧ n.address ≠ fee_payer_address) ∧
    ((RollbackAccounts.new nonce fee_payer_address fee_payer_account
        fee_payer_loaded_rent_epoch).isFeePayerOnly = true ↔ nonce = none) := by
  rcases nonce with _ | n
  · simp [RollbackAccounts.new, RollbackAccounts.isFeePayerOnly,
      RollbackAccounts.isSameNonceAndFeePayer, RollbackAccounts.isSeparateNonceAndFeePayer]
  · by_cases h : fee_payer_address = n.address
    · simp [RollbackAccounts.new, h, RollbackAccounts.isFeePayerOnly,
        RollbackAccounts.isSameNonceAndFeePayer, RollbackAccounts.isSeparateNonceAndFeePayer]
    · have hn : ¬n.address = fee_payer_address := fun hn => h hn.symm
      simp [RollbackAccounts.new, h, hn, RollbackAccounts.isFeePayerOnly,
        RollbackAccounts.isSameNonceAndFeePayer, RollbackAccounts.isSeparateNonceAndFeePayer]

/-- C8: construction is total — for every combination of inputs the result
is one of the three variants; no input is rejected and no error branch
exists. -/
theorem new_total (nonce : Option NonceInfo) (fee_payer_address : Pubkey)
    (fee_payer_account : AccountSharedData) (fee_payer_loaded_rent_epoch : Epoch) :
    (RollbackAccounts.new nonce fee_payer_address fee_payer_account
        fee_payer_loaded_rent_epoch).isFeePayerOnly = true ∨
    (RollbackAccounts.new nonce fee_payer_address fee_payer_account
        fee_payer_loaded_rent_epoch).isSameNonceAndFeePayer = true ∨
    (RollbackAccounts.new nonce fee_payer_address fee_payer_account
        fee_payer_loaded_rent_epoch).isSeparateNonceAndFeePayer = true := by
  rcases nonce with _ | n
  · left; rfl
  · by_cases h : fee_payer_address = n.address
    · right; left
      simp [RollbackAccounts.new, h, RollbackAccounts.isSameNonceAndFeePayer]
    · right; right
      simp [RollbackAccounts.new, h, RollbackAccounts.isSeparateNonceAndFeePayer]

/-- C5: `count` equals the length of the yield sequence of a fresh iterator
run to exhaustion, and that length is 1, 1 and 2 for the three variants. -/
theorem count_matches_iter_length (r : RollbackAccounts) :
    r.count = r.iter.toList.length ∧
    (∀ fp : TransactionAccount, (RollbackAccounts.FeePayerOnly fp).count = 1) ∧
    (∀ n : TransactionAccount, (RollbackAccounts.SameNonceAndFeePayer n).count = 1) ∧
    (∀ n fp : TransactionAccount, (RollbackAccounts.SeparateNonceAndFeePayer n fp).count = 2) := by
  refine ⟨?_, fun _ => rfl, fun _ => rfl, fun _ _ => rfl⟩
  cases r <;> rfl

/-- C7: the traversal yields the fee-payer entry first and the nonce entry
second: `FeePayerOnly` yields exactly its fee-payer entry,
`SameNonceAndFeePayer` yields exactly its one merged entry held in the
nonce slot of the iterator, and `SeparateNonceAndFeePayer` yields the
fee-payer entry then the nonce entry. -/
theorem iter_yield_order (n fp : TransactionAccount) :
    (RollbackAccounts.FeePayerOnly fp).iter.toList = [fp] ∧
    (RollbackAccounts.SameNonceAndFeePayer n).iter.toList = [n] ∧
    (RollbackAccounts.SameNonceAndFeePayer n).iter.fee_payer = none ∧
    (RollbackAccounts.SameNonceAndFeePayer n).iter.nonce = some n ∧
    (RollbackAccounts.SeparateNonceAndFeePayer n fp).iter.toList = [fp, n] :=
  ⟨rfl, rfl, rfl, rfl, rfl⟩

/-- C6: `data_size` is the saturating sum of the data-payload lengths of
exactly the entries the traversal yields (hence capped at `USIZE_MAX` and
never negative); for `SeparateNonceAndFeePayer`, when both payload lengths
are within the allocation bound `2 ^ 63 - 1` that every Rust vector obeys,
it is exactly the sum of the two lengths. -/
theorem data_size_sums_data_lengths (r : RollbackAccounts) (n fp : TransactionAccount)
    (h1 : n.2.data.length ≤ 2 ^ 63 - 1) (h2 : fp.2.data.length ≤ 2 ^ 63 - 1) :
    r.data_size = min ((r.iter.toList.map fun a => a.2.data.length).sum) USIZE_MAX ∧
    (RollbackAccounts.SeparateNonceAndFeePayer n fp).data_size
      = n.2.data.length + fp.2.data.length := by
  constructor
  · cases r <;>
      simp [RollbackAccounts.data_size, RollbackAccounts.iter, RollbackAccountsIter.toList,
        RollbackAccountsIter.takeAux, RollbackAccountsIter.next, RollbackAccountsIter.weight,
        Nat.saturating_add, USIZE_MAX]
    all_goals omega
  · simp [RollbackAccounts.data_size, RollbackAccounts.iter, RollbackAccountsIter.toList,
      RollbackAccountsIter.takeAux, RollbackAccountsIter.next, RollbackAccountsIter.weight,
      Nat.saturating_add, USIZE_MAX]
    omega

/-- Witness for C6 at a concrete input. -/
theorem data_size_sums_data_lengths_witness :
    ((2, sampleNonceAccount) : TransactionAccount).2.data.length ≤ 2 ^ 63 - 1 ∧
    ((1, sampleFeePayerAccount) : TransactionAccount).2.data.length ≤ 2 ^ 63 - 1 ∧
    ((RollbackAccounts.FeePayerOnly (1, sampleFeePayerAccount)).data_size
        = min (((RollbackAccounts.FeePayerOnly (1, sampleFeePayerAccount)).iter.toList.map
            fun a => a.2.data.length).sum) USIZE_MAX ∧
      (RollbackAccounts.SeparateNonceAndFeePayer (2, sampleNonceAccount)
          (1, sampleFeePayerAccount)).data_size
        = ((2, sampleNonceAccount) : TransactionAccount).2.data.length
          + ((1, sampleFeePayerAccount) : TransactionAccount).2.data.length) :=
  ⟨by decide, by decide,
    data_size_sums_data_lengths (RollbackAccounts.FeePayerOnly (1, sampleFeePayerAccount))
      (2, sampleNonceAccount) (1, sampleFeePayerAccount) (by decide) (by decide)⟩

/-- C9: in the `SameNonceAndFeePayer` case only the data payload is taken
from the nonce input — the stored entry's owner, executable flag and
rent-epoch are the input fee-payer account's — and the snapshot depends on
the nonce account only through its data payload: a second nonce input with
the same address and the same data yields the same snapshot. -/
theorem same_nonce_copies_only_data (n : NonceInfo) (fee_payer_address : Pubkey)
    (fee_payer_account : AccountSharedData) (fee_payer_loaded_rent_epoch : Epoch)
    (h : n.address = fee_payer_address) :
    (∃ entry : TransactionAccount,
      RollbackAccounts.new (some n) fee_payer_address fee_payer_account
          fee_payer_loaded_rent_epoch = RollbackAccounts.SameNonceAndFeePayer entry ∧
      entry.2.owner = fee_payer_account.owner ∧
      entry.2.executable = fee_payer_account.executable ∧
      entry.2.rent_epoch = fee_payer_account.rent_epoch) ∧
    (∀ n2 : NonceInfo, n2.address = n.address → n2.account.data = n.account.data →
      RollbackAccounts.new (some n2) fee_payer_address fee_payer_account
          fee_payer_loaded_rent_epoch
        = RollbackAccounts.new (some n) fee_payer_address fee_payer_account
            fee_payer_loaded_rent_epoch) := by
  constructor
  · refine ⟨(fee_payer_address, fee_payer_account.set_data_from_slice n.account.data),
      ?_, rfl, rfl, rfl⟩
    simp [RollbackAccounts.new, h]
  · intro n2 ha hd
    simp [RollbackAccounts.new, ha, hd, h]

/-- Witness for C9 at a concrete input. -/
theorem same_nonce_copies_only_data_witness :
    sampleNonceInfo.address = 11 ∧
    ((∃ entry : TransactionAccount,
      RollbackAccounts.new (some sampleNonceInfo) 11 sampleFeePayerAccount 5
          = RollbackAccounts.SameNonceAndFeePayer entry ∧
      entry.2.owner = sampleFeePayerAccount.owner ∧
      entry.2.executable = sampleFeePayerAccount.executable ∧
      entry.2.rent_epoch = sampleFeePayerAccount.rent_epoch) ∧
    (∀ n2 : NonceInfo, n2.address = sampleNonceInfo.address →
      n2.account.data = sampleNonceInfo.account.data →
      RollbackAccounts.new (some n2) 11 sampleFeePayerAccount 5
        = RollbackAccounts.new (some sampleNonceInfo) 11 sampleFeePayerAccount 5)) :=
  ⟨by decide, same_nonce_copies_only_data sampleNonceInfo 11 sampleFeePayerAccount 5 (by decide)⟩

/-- Once both slots are empty the iterator state is a fixed point of the
step function. -/
theorem nthState_of_exhausted (k : Nat) :
    RollbackAccountsIter.nthState k { fee_payer := none, nonce := none } =
      ({ fee_payer := none, nonce := none } : RollbackAccountsIter) := by
  induction k with
  | zero => rfl
  | succ k ih =>
      simpa [RollbackAccountsIter.nthState, RollbackAccountsIter.next] using ih

/-- C10: the iterator is exhausted permanently — after any number of steps
at least its number of filled slots (at most two), `next` returns nothing;
and the yield sequence has exactly one element per filled slot, so no slot
is yielded twice. -/
theorem iter_exhausted_permanently (it : RollbackAccountsIter) (k : Nat)
    (h : it.weight ≤ k) :
    (RollbackAccountsIter.nthState k it).next.1 = none ∧
    it.toList.length = it.weight ∧
    it.weight ≤ 2 := by
  obtain ⟨fp, nn⟩ := it
  rcases fp with _ | fp <;> rcases nn with _ | nn
  · refine ⟨?_, rfl, by decide⟩
    rw [nthState_of_exhausted]
    rfl
  · obtain ⟨k2, rfl⟩ : ∃ k2, k = k2 + 1 := ⟨k - 1, by have h1 : 1 ≤ k := h; omega⟩
    refine ⟨?_, rfl, ?_⟩
    · have h1 : RollbackAccountsIter.nthState (k2 + 1) ⟨none, some nn⟩
          = RollbackAccountsIter.nthState k2 ⟨none, none⟩ := rfl
      rw [h1, nthState_of_exhausted]
      rfl
    · exact (by decide : (1 : Nat) ≤ 2)
  · obtain ⟨k2, rfl⟩ : ∃ k2, k = k2 + 1 := ⟨k - 1, by have h1 : 1 ≤ k := h; omega⟩
    refine ⟨?_, rfl, ?_⟩
    · have h1 : RollbackAccountsIter.nthState (k2 + 1) ⟨some fp, none⟩
          = RollbackAccountsIter.nthState k2 ⟨none, none⟩ := rfl
      rw [h1, nthState_of_exhausted]
      rfl
    · exact (by decide : (1 : Nat) ≤ 2)
  · obtain ⟨k2, rfl⟩ : ∃ k2, k = k2 + 2 := ⟨k - 2, by have h1 : 2 ≤ k := h; omega⟩
    refine ⟨?_, rfl, ?_⟩
    · have h1 : RollbackAccountsIter.nthState (k2 + 2) ⟨some fp, some nn⟩
          = RollbackAccountsIter.nthState k2 ⟨none, none⟩ := rfl
      rw [h1, nthState_of_exhausted]
      rfl
    · exact (by decide : (2 : Nat) ≤ 2)

/-- Witness for C10 at a concrete input. -/
theorem iter_exhausted_permanently_witness :
    ({ fee_payer := some (1, sampleFeePayerAccount),
       nonce := some (2, sampleNonceAccount) } : RollbackAccountsIter).weight ≤ 5 ∧
    ((RollbackAccountsIter.nthState 5
        { fee_payer := some (1, sampleFeePayerAccount),
          nonce := some (2, sampleNonceAccount) }).next.1 = none ∧
     ({ fee_payer := some (1, sampleFeePayerAccount),
        nonce := some (2, sampleNonceAccount) } : RollbackAccountsIter).toList.length
       = ({ fee_payer := some (1, sampleFeePayerAccount),
            nonce := some (2, sampleNonceAccount) } : RollbackAccountsIter).weight ∧
     ({ fee_payer := some (1, sampleFeePayerAccount),
        nonce := some (2, sampleNonceAccount) } : RollbackAccountsIter).weight ≤ 2) :=
  ⟨by decide,
    iter_exhausted_permanently
      { fee_payer := some (1, sampleFeePayerAccount), nonce := some (2, sampleNonceAccount) }
      5 (by decide)⟩
